import Mathlib

/-!
Verification development for the rend3 camera manager
(`rend3/src/resources/camera.rs`) and the base render graph
(`rend3-routine/src/base.rs`).

The camera code works on `glam` `f32` vectors and matrices; here every
`f32` value is modelled as a real number and the `glam` primitives
(`Mat4::look_at_lh`, `Mat4::perspective_infinite_reverse_lh`,
`Mat4::orthographic_lh`, `Mat3A::from_euler`) are translated from the
`glam` sources over `ℝ`.  The render-graph engine (`rend3::graph`) and
the individual draw routines live outside the extracted sources; the
handful of capabilities the base graph uses from them are modelled from
the specification and marked as such below.
-/

namespace Rend3

/-- Scalar type of the model: `f32` values are modelled as real numbers. -/
abbrev Scalar := ℝ

/-- A 3-component vector (`glam::Vec3` / `glam::Vec3A`; the `Vec3A`
alignment distinction is invisible at this level, so both are one type). -/
structure Vec3 where
  x : Scalar
  y : Scalar
  z : Scalar

instance : Add Vec3 := ⟨fun a b => ⟨a.x + b.x, a.y + b.y, a.z + b.z⟩⟩

instance : Sub Vec3 := ⟨fun a b => ⟨a.x - b.x, a.y - b.y, a.z - b.z⟩⟩

instance : Neg Vec3 := ⟨fun a => ⟨-a.x, -a.y, -a.z⟩⟩

/-- Scalar multiple of a vector (used to define matrix application). -/
def Vec3.smul (v : Vec3) (s : Scalar) : Vec3 := ⟨v.x * s, v.y * s, v.z * s⟩

/-- Dot product, as in `glam`. -/
def Vec3.dot (a b : Vec3) : Scalar := a.x * b.x + a.y * b.y + a.z * b.z

/-- Cross product, as in `glam`. -/
def Vec3.cross (a b : Vec3) : Vec3 :=
  ⟨a.y * b.z - a.z * b.y, a.z * b.x - a.x * b.z, a.x * b.y - a.y * b.x⟩

/-- Euclidean length (`glam` `length`). -/
noncomputable def Vec3.length (v : Vec3) : Scalar := Real.sqrt (v.dot v)

/-- Normalization, `v / |v|` componentwise (`glam` `normalize`). -/
noncomputable def Vec3.normalize (v : Vec3) : Vec3 :=
  ⟨v.x / v.length, v.y / v.length, v.z / v.length⟩

/-- The zero vector `Vec3::ZERO`. -/
def Vec3.ZERO : Vec3 := ⟨0, 0, 0⟩

/-- The unit vector `Vec3::Y`. -/
def Vec3.Y : Vec3 := ⟨0, 1, 0⟩

/-- The unit vector `Vec3A::Z`. -/
def Vec3.Z : Vec3 := ⟨0, 0, 1⟩

/-- A 4-component vector (`glam::Vec4`). -/
structure Vec4 where
  x : Scalar
  y : Scalar
  z : Scalar
  w : Scalar

instance : Add Vec4 := ⟨fun a b => ⟨a.x + b.x, a.y + b.y, a.z + b.z, a.w + b.w⟩⟩

/-- Scalar multiple of a 4-vector. -/
def Vec4.smul (v : Vec4) (s : Scalar) : Vec4 := ⟨v.x * s, v.y * s, v.z * s, v.w * s⟩

/-- A 3x3 matrix stored as its three columns, exactly as `glam::Mat3A`. -/
structure Mat3 where
  x_axis : Vec3
  y_axis : Vec3
  z_axis : Vec3

/-- Matrix-vector product, `glam` style: the linear combination of the
columns weighted by the components of the vector. -/
def Mat3.mulVec (m : Mat3) (v : Vec3) : Vec3 :=
  m.x_axis.smul v.x + m.y_axis.smul v.y + m.z_axis.smul v.z

/-- Matrix-matrix product, columnwise as in `glam`. -/
def Mat3.mul (a b : Mat3) : Mat3 :=
  ⟨a.mulVec b.x_axis, a.mulVec b.y_axis, a.mulVec b.z_axis⟩

instance : Mul Mat3 := ⟨Mat3.mul⟩

/-- Rotation about the X axis (`glam` `Mat3A::from_rotation_x`), columns. -/
noncomputable def Mat3.from_rotation_x (a : Scalar) : Mat3 :=
  ⟨⟨1, 0, 0⟩, ⟨0, Real.cos a, Real.sin a⟩, ⟨0, -Real.sin a, Real.cos a⟩⟩

/-- Rotation about the Y axis (`glam` `Mat3A::from_rotation_y`), columns. -/
noncomputable def Mat3.from_rotation_y (a : Scalar) : Mat3 :=
  ⟨⟨Real.cos a, 0, -Real.sin a⟩, ⟨0, 1, 0⟩, ⟨Real.sin a, 0, Real.cos a⟩⟩

/-- Rotation about the Z axis (`glam` `Mat3A::from_rotation_z`), columns. -/
noncomputable def Mat3.from_rotation_z (a : Scalar) : Mat3 :=
  ⟨⟨Real.cos a, Real.sin a, 0⟩, ⟨-Real.sin a, Real.cos a, 0⟩, ⟨0, 0, 1⟩⟩

/-- Euler-angle rotation in `YXZ` order
(`glam` `Mat3A::from_euler(EulerRot::YXZ, a, b, c)`): intrinsic rotations
applied in the order Y, then X, then Z. -/
noncomputable def Mat3.from_euler_yxz (a b c : Scalar) : Mat3 :=
  Mat3.from_rotation_y a * Mat3.from_rotation_x b * Mat3.from_rotation_z c

/-- A 4x4 matrix stored as its four columns, exactly as `glam::Mat4`. -/
structure Mat4 where
  x_axis : Vec4
  y_axis : Vec4
  z_axis : Vec4
  w_axis : Vec4

/-- Matrix-vector product in column form, as in `glam`. -/
def Mat4.mulVec (m : Mat4) (v : Vec4) : Vec4 :=
  m.x_axis.smul v.x + m.y_axis.smul v.y + m.z_axis.smul v.z + m.w_axis.smul v.w

/-- Matrix-matrix product, columnwise as in `glam`. -/
def Mat4.mul (a b : Mat4) : Mat4 :=
  ⟨a.mulVec b.x_axis, a.mulVec b.y_axis, a.mulVec b.z_axis, a.mulVec b.w_axis⟩

instance : Mul Mat4 := ⟨Mat4.mul⟩

/-- The `glam` right-handed look-to matrix (`Mat4::look_to_rh`). -/
noncomputable def Mat4.look_to_rh (eye dir up : Vec3) : Mat4 :=
  let f := dir.normalize
  let s := (f.cross up).normalize
  let u := s.cross f
  ⟨⟨s.x, u.x, -f.x, 0⟩,
   ⟨s.y, u.y, -f.y, 0⟩,
   ⟨s.z, u.z, -f.z, 0⟩,
   ⟨-(eye.dot s), -(eye.dot u), eye.dot f, 1⟩⟩

/-- The `glam` left-handed look-to matrix (`Mat4::look_to_lh`), defined by
negating the direction, as in the `glam` source. -/
noncomputable def Mat4.look_to_lh (eye dir up : Vec3) : Mat4 :=
  Mat4.look_to_rh eye (-dir) up

/-- The `glam` left-handed look-at matrix (`Mat4::look_at_lh`). -/
noncomputable def Mat4.look_at_lh (eye center up : Vec3) : Mat4 :=
  Mat4.look_to_lh eye (center - eye) up

/-- The `glam` left-handed orthographic projection
(`Mat4::orthographic_lh`, 0..1 depth range). -/
noncomputable def Mat4.orthographic_lh (left right bottom top near far : Scalar) : Mat4 :=
  let rcp_width := 1 / (right - left)
  let rcp_height := 1 / (top - bottom)
  let r := 1 / (far - near)
  ⟨⟨rcp_width * 2, 0, 0, 0⟩,
   ⟨0, rcp_height * 2, 0, 0⟩,
   ⟨0, 0, r, 0⟩,
   ⟨-(left + right) * rcp_width, -(top + bottom) * rcp_height, -r * near, 1⟩⟩

/-- The `glam` left-handed infinite-far reversed-depth perspective
projection (`Mat4::perspective_infinite_reverse_lh`). -/
noncomputable def Mat4.perspective_infinite_reverse_lh
    (fov_y_radians aspect near : Scalar) : Mat4 :=
  let sin_fov := Real.sin (0.5 * fov_y_radians)
  let cos_fov := Real.cos (0.5 * fov_y_radians)
  let h := cos_fov / sin_fov
  let w := h / aspect
  ⟨⟨w, 0, 0, 0⟩,
   ⟨0, h, 0, 0⟩,
   ⟨0, 0, 0, 1⟩,
   ⟨0, 0, near, 0⟩⟩

/-- Degrees to radians, Rust `f32::to_radians`. -/
noncomputable def to_radians (x : Scalar) : Scalar := x * (Real.pi / 180)

/-- Modelled from the spec: the camera pose variants of `rend3::types::CameraProjection`
(the `rend3` types module is not among the extracted sources).  Perspective
poses carry a vertical field of view in degrees, a near-plane distance and
yaw/pitch angles; orthographic poses carry a 3D size extent and a fixed view
direction. -/
inductive CameraProjection where
  | Orthographic (size : Vec3) (direction : Vec3)
  | Projection (vfov : Scalar) (near : Scalar) (pitch : Scalar) (yaw : Scalar)

/-- Modelled from the spec: `rend3::types::Camera`, a location plus a
projection variant. -/
structure Camera where
  projection : CameraProjection
  location : Vec3

/-- From `camera.rs`: the look direction of a camera pose. -/
noncomputable def compute_look_offset (data : Camera) : Vec3 :=
  match data.projection with
  | CameraProjection.Projection _ _ pitch yaw =>
      let starting := Vec3.Z
      (Mat3.from_euler_yxz yaw pitch 0).mulVec starting
  | CameraProjection.Orthographic _ direction => direction

/-- From `camera.rs`: the world-to-camera view matrix. -/
noncomputable def compute_view_matrix (data : Camera) : Mat4 :=
  let look_offset := compute_look_offset data
  Mat4.look_at_lh data.location (data.location + look_offset) Vec3.Y

/-- From `camera.rs`: the camera-to-clip projection matrix. -/
noncomputable def compute_projection_matrix (data : Camera) ( aspect_ratio : Scalar) : Mat4 :=
  match data.projection with
  | CameraProjection.Orthographic size _ =>
      let half := size.smul 0.5
      Mat4.orthographic_lh (-half.x) half.x (-half.y) half.y (-half.z) half.z
  | CameraProjection.Projection vfov near _ _ =>
      Mat4.perspective_infinite_reverse_lh (to_radians vfov) aspect_ratio near

/-- From `camera.rs`: the translation-free origin view matrix. -/
noncomputable def compute_origin_matrix (data : Camera) : Mat4 :=
  let look_offset := compute_look_offset data
  Mat4.look_at_lh Vec3.ZERO look_offset Vec3.Y

/-- The `CameraManager` state from `camera.rs`: the three cached matrices,
the last-set pose and the last-set aspect ratio. -/
structure CameraManager where
  orig_view : Mat4
  view : Mat4
  proj : Mat4
  data : Camera
  aspect_ratio : Scalar

/-- `CameraManager::new`: a missing aspect ratio defaults to `1.0`. -/
noncomputable def CameraManager.new (data : Camera) ( aspect_ratio : Option Scalar) : CameraManager :=
  let ar := aspect_ratio.getD 1
  { orig_view := compute_origin_matrix data
    view := compute_view_matrix data
    proj := compute_projection_matrix data ar
    data := data
    aspect_ratio := ar }

/-- `CameraManager::set_aspect_data`: note that, as in the source, the
projection matrix is recomputed with the aspect-ratio field read *before*
the field is overwritten with the new argument. -/
noncomputable def CameraManager.set_aspect_data (s : CameraManager) (data : Camera)
    ( aspect_ratio : Scalar) : CameraManager :=
  { proj := compute_projection_matrix data s.aspect_ratio
    view := compute_view_matrix data
    orig_view := compute_origin_matrix data
    data := data
    aspect_ratio := aspect_ratio }

/-- `CameraManager::set_data`, delegating with the current aspect ratio. -/
noncomputable def CameraManager.set_data (s : CameraManager) (data : Camera) : CameraManager :=
  s.set_aspect_data data s.aspect_ratio

/-- `CameraManager::set_aspect_ratio`, delegating with the current pose. -/
noncomputable def CameraManager.set_aspect_ratio (s : CameraManager)
    ( aspect_ratio : Option Scalar) : CameraManager :=
  s.set_aspect_data s.data ( aspect_ratio.getD 1)

/-- `CameraManager::get_data`. -/
def CameraManager.get_data (s : CameraManager) : Camera := s.data

/-- `CameraManager::view_proj`. -/
noncomputable def CameraManager.view_proj (s : CameraManager) : Mat4 := s.proj * s.view

/-- `CameraManager::origin_view_proj`. -/
noncomputable def CameraManager.origin_view_proj (s : CameraManager) : Mat4 := s.proj * s.orig_view

/-- States of `CameraManager` reachable through the public constructors and
mutators of `camera.rs`. -/
inductive Reachable : CameraManager → Prop where
  | new (d : Camera) (a : Option Scalar) : Reachable (CameraManager.new d a)
  | stepData {s : CameraManager} (d : Camera) :
      Reachable s → Reachable (CameraManager.set_data s d)
  | stepAspect {s : CameraManager} (a : Option Scalar) :
      Reachable s → Reachable (CameraManager.set_aspect_ratio s a)
  | stepAspectData {s : CameraManager} (d : Camera) (a : Scalar) :
      Reachable s → Reachable (CameraManager.set_aspect_data s d a)

/-- A concrete perspective camera pose used to exhibit behaviour of the
update paths: vertical field of view 90 degrees, near plane 1, no pitch or
yaw, placed at the origin. -/
noncomputable def cexCamera : Camera :=
  { projection := CameraProjection.Projection 90 1 0 0
    location := ⟨0, 0, 0⟩ }

/-- A concrete camera pose used to instantiate reachability. -/
noncomputable def sampleCamera : Camera :=
  { projection := CameraProjection.Projection 60 1 0 0
    location := ⟨1, 2, 3⟩ }

/-! ## Render-graph model

The base render graph of `rend3-routine/src/base.rs` drives an external
render-graph engine (`rend3::graph`) and a set of opaque draw routines.
Those collaborators are not among the extracted sources; each capability
the base graph consumes from them is modelled from the specification as a
definition below, marked `Modelled from the spec`.  The code of `base.rs`
itself (allocation order, stage order, loop structure, arguments) is
translated directly. -/

/-- Unsigned 2-component vector (`glam::UVec2`), components as naturals. -/
structure UVec2 where
  x : Nat
  y : Nat
deriving DecidableEq, Repr

/-- `UVec2::splat`. -/
def UVec2.splat (n : Nat) : UVec2 := ⟨n, n⟩

/-- Modelled from the spec: a viewport sub-rectangle of a render target
(`rend3::graph::ViewportRect`), an offset plus a size. -/
structure ViewportRect where
  offset : UVec2
  size : UVec2
deriving DecidableEq, Repr

/-- Modelled from the spec: sample counts of `rend3::types::SampleCount`;
`one` means no multisampling, `four` is the multisampled setting. -/
inductive SampleCount where
  | one
  | four
deriving DecidableEq, Repr

/-- Modelled from the spec: a sample count needs a resolve target exactly
when it is greater than one. -/
def SampleCount.needs_resolve : SampleCount → Bool
  | .one => false
  | .four => true

/-- Texture formats used by the base graph.  `shadowDepth` stands for the
device-native `INTERNAL_SHADOW_DEPTH_FORMAT` of `rend3`, whose identity is
outside the extracted sources. -/
inductive TextureFormat where
  | depth32Float
  | rgba16Float
  | shadowDepth
deriving DecidableEq, Repr

/-- Modelled from the spec: the device shadow-depth format constant of
`rend3`. -/
def INTERNAL_SHADOW_DEPTH_FORMAT : TextureFormat := TextureFormat.shadowDepth

/-- Usage flags of a render target (`wgpu::TextureUsages`), restricted to
the two flags the base graph uses. -/
structure TextureUsages where
  render_attachment : Bool
  texture_binding : Bool
deriving DecidableEq, Repr

/-- The `RENDER_ATTACHMENT | TEXTURE_BINDING` usage every base-graph target
is declared with. -/
def attachmentAndBinding : TextureUsages := ⟨true, true⟩

/-- Modelled from the spec: the descriptor of a transient render target
(`rend3::graph::RenderTargetDescriptor`). -/
structure RenderTargetDescriptor where
  label : Option String
  resolution : UVec2
  depth : Nat
  mip_levels : Option Nat
  samples : SampleCount
  format : TextureFormat
  usage : TextureUsages
deriving DecidableEq, Repr

/-- Modelled from the spec: an opaque handle into the graph engine's
resource table (`rend3::graph::RenderTargetHandle`), an index plus the
optional mip-range and viewport restrictions derivable from it. -/
structure RenderTargetHandle where
  idx : Nat
  mips : Option (Nat × Nat) := none
  viewport : Option ViewportRect := none
deriving DecidableEq, Repr

/-- Modelled from the spec: restrict a handle to a mip range
(`RenderTargetHandle::set_mips`). -/
def RenderTargetHandle.set_mips (h : RenderTargetHandle) (lo hi : Nat) : RenderTargetHandle :=
  { h with mips := some (lo, hi) }

/-- Modelled from the spec: restrict a handle to a viewport rectangle
(`RenderTargetHandle::set_viewport`). -/
def RenderTargetHandle.set_viewport (h : RenderTargetHandle) (r : ViewportRect) : RenderTargetHandle :=
  { h with viewport := some r }

/-- A color attachment of a render pass (`rend3::graph::RenderPassTarget`):
the color handle, its optional resolve handle, and the clear color. -/
structure RenderPassTarget where
  color : RenderTargetHandle
  resolve : Option RenderTargetHandle
  clear : Vec4

/-- The depth/stencil attachment of a render pass
(`rend3::graph::RenderPassDepthTarget`). -/
structure RenderPassDepthTarget where
  target : RenderTargetHandle
  depth_clear : Option Scalar
  stencil_clear : Option Scalar

/-- The full target set of a render pass (`rend3::graph::RenderPassTargets`). -/
structure RenderPassTargets where
  targets : List RenderPassTarget
  depth_stencil : Option RenderPassDepthTarget

/-- Modelled from the spec: the resolved single-sample view of a pass's
color target (`RenderPassTargets::resolved_color`): the resolve handle when
present, otherwise the color handle itself. -/
def RenderPassTargets.resolved_color (rp : RenderPassTargets) (idx : Nat) : RenderTargetHandle :=
  match rp.targets.get? idx with
  | some t => t.resolve.getD t.color
  | none => ⟨0, none, none⟩

/-- Identifiers for the draw routines the base graph invokes.  The routines
themselves are opaque collaborators; only their identity matters for the
shape of the graph. -/
inductive RoutineId where
  | OpaqueDepth
  | CutoutDepth
  | OpaqueForward
  | CutoutForward
  | BlendForward
deriving DecidableEq, Repr

/-- The camera a routine renders with
(`rend3-routine` `common::CameraSpecifier`): the main viewport or a shadow
light by index. -/
inductive CameraSpecifier where
  | Viewport
  | Shadow (idx : Nat)
deriving DecidableEq, Repr

/-- A node inserted into the render graph.  Each variant records the
arguments the base graph hands to the corresponding collaborator. -/
inductive Node where
  | clearDepth (target : RenderTargetHandle) (depth : Scalar)
  | frameUniforms (shadow_target : RenderTargetHandle) (shadow_uniform_bg : Nat)
      (forward_uniform_bg : Nat) (ambient : Vec4) (resolution : UVec2)
  | skinning
  | forward (routine : RoutineId) (label : String) (camera : CameraSpecifier)
      (whole_frame_uniform_bg : Nat) (samples : SampleCount) (renderpass : RenderPassTargets)
  | skyboxNode (renderpass : RenderPassTargets) (forward_uniform_bg : Nat) (samples : SampleCount)
  | tonemapNode (src : RenderTargetHandle) (output : RenderTargetHandle) (forward_uniform_bg : Nat)

/-- Modelled from the spec: the state of the external render-graph engine
as the base graph observes it — the declared transient targets, the number
of allocated shared data slots, and the inserted nodes in declaration
order. -/
structure RenderGraph where
  targets : List RenderTargetDescriptor
  data_count : Nat
  nodes : List Node

/-- The empty render graph a frame starts from. -/
def RenderGraph.empty : RenderGraph := ⟨[], 0, []⟩

/-- Modelled from the spec: `RenderGraph::add_render_target` allocates a
named transient target and returns its opaque handle. -/
def RenderGraph.add_render_target (g : RenderGraph) (d : RenderTargetDescriptor) :
    RenderGraph × RenderTargetHandle :=
  ({ g with targets := g.targets ++ [d] }, ⟨g.targets.length, none, none⟩)

/-- Modelled from the spec: `RenderGraph::add_data` allocates a fresh
write-once shared bind-group slot and returns its handle. -/
def RenderGraph.add_data (g : RenderGraph) : RenderGraph × Nat :=
  ({ g with data_count := g.data_count + 1 }, g.data_count)

/-- Insert one node at the end of the declaration order. -/
def RenderGraph.add_node (g : RenderGraph) (n : Node) : RenderGraph :=
  { g with nodes := g.nodes ++ [n] }

/-- Modelled from the spec: `clear::add_depth_clear_to_graph` inserts one
explicit depth-clear node. -/
def add_depth_clear_to_graph (g : RenderGraph) (target : RenderTargetHandle)
    (depth : Scalar) : RenderGraph :=
  g.add_node (Node.clearDepth target depth)

/-- Modelled from the spec: `uniforms::add_to_graph` inserts the single
node that populates both per-frame uniform slots from the ambient color,
the output resolution and the sampler state. -/
def uniforms_add_to_graph (g : RenderGraph) (shadow_target : RenderTargetHandle)
    (shadow_uniform_bg forward_uniform_bg : Nat) (ambient : Vec4)
    (resolution : UVec2) : RenderGraph :=
  g.add_node (Node.frameUniforms shadow_target shadow_uniform_bg forward_uniform_bg ambient resolution)

/-- Modelled from the spec: `skinning::add_skinning_to_graph` inserts the
single per-frame GPU skinning compute node. -/
def add_skinning_to_graph (g : RenderGraph) : RenderGraph :=
  g.add_node Node.skinning

/-- The argument bundle of a forward routine
(`forward::ForwardRoutineArgs`), minus the graph reference which is
threaded explicitly. -/
structure ForwardRoutineArgs where
  label : String
  camera : CameraSpecifier
  whole_frame_uniform_bg : Nat
  samples : SampleCount
  renderpass : RenderPassTargets

/-- Modelled from the spec: `ForwardRoutine::add_forward_to_graph` inserts
exactly the one draw node implied by the routine's identity. -/
def add_forward_to_graph (routine : RoutineId) (g : RenderGraph)
    (args : ForwardRoutineArgs) : RenderGraph :=
  g.add_node (Node.forward routine args.label args.camera args.whole_frame_uniform_bg
    args.samples args.renderpass)

/-- Modelled from the spec: `SkyboxRoutine::add_to_graph` inserts the one
skybox node. -/
def skybox_add_to_graph (g : RenderGraph) (renderpass : RenderPassTargets)
    (forward_uniform_bg : Nat) (samples : SampleCount) : RenderGraph :=
  g.add_node (Node.skyboxNode renderpass forward_uniform_bg samples)

/-- Modelled from the spec: `TonemappingRoutine::add_to_graph` inserts the
terminal tonemap node reading `src` and writing the output target. -/
def tonemapping_add_to_graph (g : RenderGraph) (src output : RenderTargetHandle)
    (forward_uniform_bg : Nat) : RenderGraph :=
  g.add_node (Node.tonemapNode src output forward_uniform_bg)

/-- The pair of depth targets of `base.rs` (`DepthTargets`): the
single-sample mipped depth target and the optional multisampled one. -/
structure DepthTargets where
  single_sample_mipped : RenderTargetHandle
  multi_sample : Option RenderTargetHandle
deriving DecidableEq, Repr

/-- `DepthTargets::new` from `base.rs`: always allocate the single-sample
mipped depth target; allocate the multisampled one only when the sample
count needs a resolve. -/
def DepthTargets.new (g : RenderGraph) (resolution : UVec2) (samples : SampleCount) :
    DepthTargets × RenderGraph :=
  let r := g.add_render_target
    { label := some "hdr depth"
      resolution := resolution
      depth := 1
      mip_levels := none
      samples := SampleCount.one
      format := TextureFormat.depth32Float
      usage := attachmentAndBinding }
  if samples.needs_resolve then
    let r2 := r.1.add_render_target
      { label := some "hdr depth multisampled"
        resolution := resolution
        depth := 1
        mip_levels := some 1
        samples := samples
        format := TextureFormat.depth32Float
        usage := attachmentAndBinding }
    (⟨r.2, some r2.2⟩, r2.1)
  else
    (⟨r.2, none⟩, r.1)

/-- `DepthTargets::rendering_target` from `base.rs`: the multisampled
target when present, else the single-sample target restricted to mip 0. -/
def DepthTargets.rendering_target (d : DepthTargets) : RenderTargetHandle :=
  d.multi_sample.getD (d.single_sample_mipped.set_mips 0 1)

/-- Modelled from the spec: one entry of the evaluated shadow list — the
per-light placement in the shadow atlas, an offset plus a square size. -/
structure ShadowMap where
  offset : UVec2
  size : Nat
deriving DecidableEq, Repr

/-- Modelled from the spec: one evaluated shadow-casting light
(`rend3` `ShadowDesc`), of which the base graph reads the atlas map. -/
structure ShadowDesc where
  map : ShadowMap
deriving DecidableEq, Repr

/-- Modelled from the spec: the evaluated per-frame scene data
(`rend3::graph::InstructionEvaluationOutput`) as consumed by the base
graph — the shadow-atlas size and the evaluated shadow list. -/
structure InstructionEvaluationOutput where
  shadow_target_size : UVec2
  shadows : List ShadowDesc
deriving DecidableEq, Repr

/-- The externally supplied output target of `base.rs`
(`OutputRenderTarget`). -/
structure OutputRenderTarget where
  handle : RenderTargetHandle
  resolution : UVec2
  samples : SampleCount
deriving DecidableEq, Repr

/-- The routine bundle of `base.rs` (`BaseRenderGraphRoutines`).  The PBR
routine set and tonemapping routine are always present and identified by
`RoutineId`; only the optional skybox routine carries information here. -/
structure BaseRenderGraphRoutines where
  skybox : Option Unit
deriving DecidableEq, Repr

/-- The input bundle of `base.rs` (`BaseRenderGraphInputs`). -/
structure BaseRenderGraphInputs where
  eval_output : InstructionEvaluationOutput
  routines : BaseRenderGraphRoutines
  target : OutputRenderTarget

/-- The settings of `base.rs` (`BaseRenderGraphSettings`). -/
structure BaseRenderGraphSettings where
  ambient_color : Vec4
  clear_color : Vec4

/-- The intermediate per-frame state of `base.rs`
(`BaseRenderGraphIntermediateState`), with the graph threaded separately
instead of held by mutable reference. -/
structure BaseRenderGraphIntermediateState where
  inputs : BaseRenderGraphInputs
  settings : BaseRenderGraphSettings
  shadow_uniform_bg : Nat
  forward_uniform_bg : Nat
  shadow : RenderTargetHandle
  depth : DepthTargets
  primary_renderpass : RenderPassTargets
  pre_skinning_buffers : Nat

/-- `BaseRenderGraphIntermediateState::new` from `base.rs`, performing the
allocations in source order: the two uniform slots, the shadow target, the
HDR color target, the optional resolve target, the depth targets, the
primary render-pass target set, and the pre-skinning slot. -/
def BaseRenderGraphIntermediateState.new (g : RenderGraph)
    (inputs : BaseRenderGraphInputs) (settings : BaseRenderGraphSettings) :
    BaseRenderGraphIntermediateState × RenderGraph :=
  let r1 := g.add_data
  let r2 := r1.1.add_data
  let r3 := r2.1.add_render_target
    { label := some "shadow target"
      resolution := inputs.eval_output.shadow_target_size
      depth := 1
      mip_levels := some 1
      samples := SampleCount.one
      format := INTERNAL_SHADOW_DEPTH_FORMAT
      usage := attachmentAndBinding }
  let r4 := r3.1.add_render_target
    { label := some "hdr color"
      resolution := inputs.target.resolution
      depth := 1
      samples := inputs.target.samples
      mip_levels := some 1
      format := TextureFormat.rgba16Float
      usage := attachmentAndBinding }
  let r5 :=
    if inputs.target.samples.needs_resolve then
      let rr := r4.1.add_render_target
        { label := some "hdr resolve"
          resolution := inputs.target.resolution
          depth := 1
          mip_levels := some 1
          samples := SampleCount.one
          format := TextureFormat.rgba16Float
          usage := attachmentAndBinding }
      (rr.1, some rr.2)
    else (r4.1, (none : Option RenderTargetHandle))
  let r6 := DepthTargets.new r5.1 inputs.target.resolution inputs.target.samples
  let primary_renderpass : RenderPassTargets :=
    { targets := [{ color := r4.2, resolve := r5.2, clear := settings.clear_color }]
      depth_stencil := some
        { target := r6.1.rendering_target
          depth_clear := some 0
          stencil_clear := none } }
  let r7 := r6.2.add_data
  ({ inputs := inputs
     settings := settings
     shadow_uniform_bg := r1.2
     forward_uniform_bg := r2.2
     shadow := r3.2
     depth := r6.1
     primary_renderpass := primary_renderpass
     pre_skinning_buffers := r7.2 }, r7.1)

/-- `clear_shadow_buffers` from `base.rs`: one explicit depth clear of the
shadow target to `0.0`. -/
def BaseRenderGraphIntermediateState.clear_shadow_buffers
    (st : BaseRenderGraphIntermediateState) (g : RenderGraph) : RenderGraph :=
  add_depth_clear_to_graph g st.shadow 0

/-- `create_frame_uniforms` from `base.rs`. -/
def BaseRenderGraphIntermediateState.create_frame_uniforms
    (st : BaseRenderGraphIntermediateState) (g : RenderGraph) : RenderGraph :=
  uniforms_add_to_graph g st.shadow st.shadow_uniform_bg st.forward_uniform_bg
    st.settings.ambient_color st.inputs.target.resolution

/-- `skinning` from `base.rs`. -/
def BaseRenderGraphIntermediateState.skinning
    (_st : BaseRenderGraphIntermediateState) (g : RenderGraph) : RenderGraph :=
  add_skinning_to_graph g

/-- The body of the shadow loop of `pbr_shadow_rendering` for one entry of
the evaluated shadow list: restrict the shadow target to the entry's atlas
rectangle and run the opaque-depth routine then the cutout-depth routine
against the depth-only pass, both bound to the shadow-uniform slot. -/
def BaseRenderGraphIntermediateState.pbr_shadow_pass
    (st : BaseRenderGraphIntermediateState) (g : RenderGraph)
    (shadow_index : Nat) (desc : ShadowDesc) : RenderGraph :=
  let target := st.shadow.set_viewport ⟨desc.map.offset, UVec2.splat desc.map.size⟩
  let renderpass : RenderPassTargets :=
    { targets := []
      depth_stencil := some { target := target, depth_clear := some 0, stencil_clear := none } }
  let args : ForwardRoutineArgs :=
    { label := "pbr shadow renderering S" ++ Nat.repr shadow_index
      camera := CameraSpecifier.Shadow shadow_index
      whole_frame_uniform_bg := st.shadow_uniform_bg
      samples := SampleCount.one
      renderpass := renderpass }
  let g := add_forward_to_graph RoutineId.OpaqueDepth g args
  add_forward_to_graph RoutineId.CutoutDepth g args

/-- `pbr_shadow_rendering` from `base.rs`: iterate the evaluated shadow
list in index order (`iter().enumerate()`), inserting one node pair per
entry. -/
def BaseRenderGraphIntermediateState.pbr_shadow_rendering
    (st : BaseRenderGraphIntermediateState) (g : RenderGraph) : RenderGraph :=
  (st.inputs.eval_output.shadows.enum).foldl
    (fun g p => st.pbr_shadow_pass g p.1 p.2) g

/-- `pbr_render` from `base.rs`: the opaque routine then the cutout routine
against the primary pass targets, at the output sample count. -/
def BaseRenderGraphIntermediateState.pbr_render
    (st : BaseRenderGraphIntermediateState) (g : RenderGraph) : RenderGraph :=
  [RoutineId.OpaqueForward, RoutineId.CutoutForward].foldl
    (fun g r => add_forward_to_graph r g
      { label := "PBR Forward Pass"
        camera := CameraSpecifier.Viewport
        whole_frame_uniform_bg := st.forward_uniform_bg
        samples := st.inputs.target.samples
        renderpass := st.primary_renderpass }) g

/-- `skybox` from `base.rs`: insert the skybox node only when a skybox
routine was supplied. -/
def BaseRenderGraphIntermediateState.skybox
    (st : BaseRenderGraphIntermediateState) (g : RenderGraph) : RenderGraph :=
  match st.inputs.routines.skybox with
  | some _ => skybox_add_to_graph g st.primary_renderpass st.forward_uniform_bg
      st.inputs.target.samples
  | none => g

/-- `pbr_forward_rendering_transparent` from `base.rs`. -/
def BaseRenderGraphIntermediateState.pbr_forward_rendering_transparent
    (st : BaseRenderGraphIntermediateState) (g : RenderGraph) : RenderGraph :=
  add_forward_to_graph RoutineId.BlendForward g
    { label := "PBR Forward Transparent"
      camera := CameraSpecifier.Viewport
      whole_frame_uniform_bg := st.forward_uniform_bg
      samples := st.inputs.target.samples
      renderpass := st.primary_renderpass }

/-- `tonemapping` from `base.rs`: read the resolved primary color and write
the externally supplied output target. -/
def BaseRenderGraphIntermediateState.tonemapping
    (st : BaseRenderGraphIntermediateState) (g : RenderGraph) : RenderGraph :=
  tonemapping_add_to_graph g (st.primary_renderpass.resolved_color 0)
    st.inputs.target.handle st.forward_uniform_bg

/-- `BaseRenderGraph::add_to_graph` from `base.rs`: build the intermediate
state and issue the stages in the fixed source order. -/
def BaseRenderGraph.add_to_graph (g : RenderGraph) (inputs : BaseRenderGraphInputs)
    (settings : BaseRenderGraphSettings) : RenderGraph :=
  let r := BaseRenderGraphIntermediateState.new g inputs settings
  let state := r.1
  let g := r.2
  let g := state.clear_shadow_buffers g
  let g := state.create_frame_uniforms g
  let g := state.skinning g
  let g := state.pbr_shadow_rendering g
  let g := state.pbr_render g
  let g := state.skybox g
  let g := state.pbr_forward_rendering_transparent g
  state.tonemapping g

/-! ## Spec-side descriptions of the assembled graph

The following definitions state, directly as lists, what the specification
says the assembled graph looks like when assembly starts from the empty
graph.  They are compared against `BaseRenderGraph.add_to_graph` in the
theorems below. -/

/-- Recognizes a shadow-map rendering node: a forward draw against a shadow
camera. -/
def isShadowRenderNode : Node → Bool
  | Node.forward _ _ (CameraSpecifier.Shadow _) _ _ _ => true
  | _ => false

/-- Recognizes the skybox node. -/
def isSkyboxNode : Node → Bool
  | Node.skyboxNode _ _ _ => true
  | _ => false

/-- The two nodes `pbr_shadow_pass` appends for one shadow entry, as a
list (used to describe the shadow loop as a flat concatenation). -/
def BaseRenderGraphIntermediateState.pbr_shadow_pass_nodes
    (st : BaseRenderGraphIntermediateState) (shadow_index : Nat) (desc : ShadowDesc) :
    List Node :=
  let target := st.shadow.set_viewport ⟨desc.map.offset, UVec2.splat desc.map.size⟩
  let renderpass : RenderPassTargets :=
    { targets := []
      depth_stencil := some { target := target, depth_clear := some 0, stencil_clear := none } }
  [Node.forward RoutineId.OpaqueDepth ("pbr shadow renderering S" ++ Nat.repr shadow_index)
     (CameraSpecifier.Shadow shadow_index) st.shadow_uniform_bg SampleCount.one renderpass,
   Node.forward RoutineId.CutoutDepth ("pbr shadow renderering S" ++ Nat.repr shadow_index)
     (CameraSpecifier.Shadow shadow_index) st.shadow_uniform_bg SampleCount.one renderpass]

/-- Spec side: the depth-only render pass a shadow entry is rendered into —
the shadow target (handle 0 when assembly starts from the empty graph)
restricted to the entry's atlas rectangle, no color attachments, depth
cleared to 0. -/
def specShadowRenderpass (desc : ShadowDesc) : RenderPassTargets :=
  { targets := []
    depth_stencil := some
      { target := ⟨0, none, some ⟨desc.map.offset, UVec2.splat desc.map.size⟩⟩
        depth_clear := some 0
        stencil_clear := none } }

/-- Spec side: the node pair of one indexed shadow entry — the opaque-depth
routine then the cutout-depth routine, bound to the shadow-uniform slot
(slot 0), single-sample, against the entry's depth-only pass. -/
def specShadowPairNodes (p : Nat × ShadowDesc) : List Node :=
  [Node.forward RoutineId.OpaqueDepth ("pbr shadow renderering S" ++ Nat.repr p.1)
     (CameraSpecifier.Shadow p.1) 0 SampleCount.one (specShadowRenderpass p.2),
   Node.forward RoutineId.CutoutDepth ("pbr shadow renderering S" ++ Nat.repr p.1)
     (CameraSpecifier.Shadow p.1) 0 SampleCount.one (specShadowRenderpass p.2)]

/-- Spec side: the whole shadow stage — one node pair per entry of the
evaluated shadow list, in list index order. -/
def specShadowSegment (inputs : BaseRenderGraphInputs) : List Node :=
  inputs.eval_output.shadows.enum.flatMap specShadowPairNodes

/-- Spec side: the primary render-pass target set when assembly starts from
the empty graph.  Without multisampling the color target (handle 1) has no
resolve target and depth is the single-sample mipped target (handle 2)
restricted to mip 0; with multisampling the resolve target is handle 2 and
depth is the multisampled target (handle 4). -/
def specPrimaryRenderpass (inputs : BaseRenderGraphInputs)
    (settings : BaseRenderGraphSettings) : RenderPassTargets :=
  match inputs.target.samples with
  | SampleCount.one =>
      { targets := [{ color := ⟨1, none, none⟩, resolve := none, clear := settings.clear_color }]
        depth_stencil := some
          { target := ⟨2, some (0, 1), none⟩, depth_clear := some 0, stencil_clear := none } }
  | SampleCount.four =>
      { targets := [{ color := ⟨1, none, none⟩, resolve := some ⟨2, none, none⟩,
                      clear := settings.clear_color }]
        depth_stencil := some
          { target := ⟨4, none, none⟩, depth_clear := some 0, stencil_clear := none } }

/-- Spec side: the single-sample source the tonemap node reads — the
resolve target when multisampling, else the color target itself. -/
def specTonemapSource (inputs : BaseRenderGraphInputs) : RenderTargetHandle :=
  match inputs.target.samples with
  | SampleCount.one => ⟨1, none, none⟩
  | SampleCount.four => ⟨2, none, none⟩

/-- Spec side: the skybox stage — one node when the skybox routine is
supplied, none otherwise. -/
def specSkyboxSegment (inputs : BaseRenderGraphInputs)
    (settings : BaseRenderGraphSettings) : List Node :=
  match inputs.routines.skybox with
  | some _ => [Node.skyboxNode (specPrimaryRenderpass inputs settings) 1 inputs.target.samples]
  | none => []

/-- Spec side: the complete node sequence of one assembled frame, in stage
order. -/
def specNodes (inputs : BaseRenderGraphInputs) (settings : BaseRenderGraphSettings) :
    List Node :=
  [Node.clearDepth ⟨0, none, none⟩ 0,
   Node.frameUniforms ⟨0, none, none⟩ 0 1 settings.ambient_color inputs.target.resolution,
   Node.skinning]
  ++ specShadowSegment inputs
  ++ [Node.forward RoutineId.OpaqueForward "PBR Forward Pass" CameraSpecifier.Viewport 1
        inputs.target.samples (specPrimaryRenderpass inputs settings),
      Node.forward RoutineId.CutoutForward "PBR Forward Pass" CameraSpecifier.Viewport 1
        inputs.target.samples (specPrimaryRenderpass inputs settings)]
  ++ specSkyboxSegment inputs settings
  ++ [Node.forward RoutineId.BlendForward "PBR Forward Transparent" CameraSpecifier.Viewport 1
        inputs.target.samples (specPrimaryRenderpass inputs settings),
      Node.tonemapNode (specTonemapSource inputs) inputs.target.handle 1]

/-- A concrete input configuration: empty shadow list, skybox routine
present, single-sample 800x600 output. -/
noncomputable def cexInputs : BaseRenderGraphInputs :=
  { eval_output := { shadow_target_size := ⟨1024, 512⟩, shadows := [] }
    routines := { skybox := some () }
    target := { handle := ⟨7, none, none⟩, resolution := ⟨800, 600⟩, samples := SampleCount.one } }

/-- Concrete settings with black ambient and clear colors. -/
noncomputable def cexSettings : BaseRenderGraphSettings :=
  { ambient_color := ⟨0, 0, 0, 0⟩
    clear_color := ⟨0, 0, 0, 0⟩ }

/-! ## Camera manager theorems -/

/-- C2: for every state, pose and new aspect ratio, `set_aspect_data`
computes the stored projection matrix from the new pose and the
*previously* stored aspect-ratio field, and only afterwards overwrites the
field with the new value. -/
theorem set_aspect_data_uses_previous_aspect (s : CameraManager) (d : Camera) (a : Scalar) :
    CameraManager.proj (CameraManager.set_aspect_data s d a)
        = compute_projection_matrix d ( CameraManager.aspect_ratio s)
      ∧ CameraManager.aspect_ratio (CameraManager.set_aspect_data s d a) = a :=
  ⟨rfl, rfl⟩

/-- C9: passing no aspect ratio is the same as passing `1.0`, both in the
constructor and in `set_aspect_ratio`; the resulting states are identical. -/
theorem aspect_none_defaults_to_one :
    (∀ d : Camera, CameraManager.new d none = CameraManager.new d (some 1))
      ∧ ∀ s : CameraManager,
          CameraManager.set_aspect_ratio s none = CameraManager.set_aspect_ratio s (some 1) :=
  ⟨fun _ => rfl, fun _ => rfl⟩

/-- C10: `set_data` leaves the stored aspect ratio unchanged and recomputes
the stored projection from the new pose and that unchanged aspect ratio, so
the stale-aspect behaviour of the combined update is not observable through
`set_data`. -/
theorem set_data_keeps_aspect (s : CameraManager) (d : Camera) :
    CameraManager.aspect_ratio (CameraManager.set_data s d) = CameraManager.aspect_ratio s
      ∧ CameraManager.proj (CameraManager.set_data s d)
          = compute_projection_matrix d ( CameraManager.aspect_ratio s) :=
  ⟨rfl, rfl⟩

/-- C6: the origin view matrix is independent of the camera location — two
poses that differ only in their location field produce identical
`compute_origin_matrix` outputs, and identical `orig_view` fields when a
manager is built from them. -/
theorem origin_matrix_ignores_location (p : CameraProjection) (loc1 loc2 : Vec3)
    (a : Option Scalar) :
    compute_origin_matrix { projection := p, location := loc1 }
        = compute_origin_matrix { projection := p, location := loc2 }
      ∧ CameraManager.orig_view (CameraManager.new { projection := p, location := loc1 } a)
          = CameraManager.orig_view (CameraManager.new { projection := p, location := loc2 } a) :=
  ⟨rfl, rfl⟩

/-- C5: on every reachable state the accessor `view_proj` returns exactly
`proj * view` and `origin_view_proj` returns exactly `proj * orig_view`, as
products of the cached matrices. -/
theorem view_proj_accessors_consistent (s : CameraManager) (_h : Reachable s) :
    CameraManager.view_proj s = CameraManager.proj s * CameraManager.view s
      ∧ CameraManager.origin_view_proj s = CameraManager.proj s * CameraManager.orig_view s :=
  ⟨rfl, rfl⟩

/-- Witness for C5 at the concrete state built from `sampleCamera`. -/
theorem view_proj_accessors_consistent_witness :
    Reachable (CameraManager.new sampleCamera none)
      ∧ (CameraManager.view_proj (CameraManager.new sampleCamera none)
            = CameraManager.proj (CameraManager.new sampleCamera none)
              * CameraManager.view (CameraManager.new sampleCamera none)
          ∧ CameraManager.origin_view_proj (CameraManager.new sampleCamera none)
            = CameraManager.proj (CameraManager.new sampleCamera none)
              * CameraManager.orig_view (CameraManager.new sampleCamera none)) :=
  ⟨Reachable.new sampleCamera none,
    view_proj_accessors_consistent _ (Reachable.new sampleCamera none)⟩

/-- C1 counterexample: starting from a 90-degree perspective camera with
aspect ratio 1, the call `set_aspect_ratio (some 2)` returns a state whose
stored projection matrix is *not* the projection computed from its last-set
pose and last-set aspect ratio: the projection was recomputed with the old
aspect ratio 1, so a stale matrix is observable. -/
theorem set_aspect_ratio_stale_proj_cex :
    CameraManager.proj
        (CameraManager.set_aspect_ratio (CameraManager.new cexCamera (some 1)) (some 2))
      ≠ compute_projection_matrix
          (CameraManager.get_data
            (CameraManager.set_aspect_ratio (CameraManager.new cexCamera (some 1)) (some 2)))
          ( CameraManager.aspect_ratio
            (CameraManager.set_aspect_ratio (CameraManager.new cexCamera (some 1)) (some 2))) := by
  intro h
  have e1 : CameraManager.proj
      (CameraManager.set_aspect_ratio (CameraManager.new cexCamera (some 1)) (some 2))
      = Mat4.perspective_infinite_reverse_lh (to_radians 90) 1 1 := rfl
  have e2 : compute_projection_matrix
      (CameraManager.get_data
        (CameraManager.set_aspect_ratio (CameraManager.new cexCamera (some 1)) (some 2)))
      ( CameraManager.aspect_ratio
        (CameraManager.set_aspect_ratio (CameraManager.new cexCamera (some 1)) (some 2)))
      = Mat4.perspective_infinite_reverse_lh (to_radians 90) 2 1 := rfl
  rw [e1, e2] at h
  have h0 := congrArg (fun m => (Mat4.x_axis m).x) h
  simp only [Mat4.perspective_infinite_reverse_lh] at h0
  have harg : (0.5 : ℝ) * to_radians 90 = Real.pi / 4 := by
    simp only [to_radians]
    ring
  rw [harg, Real.cos_pi_div_four, Real.sin_pi_div_four] at h0
  have hpos : (0 : ℝ) < Real.sqrt 2 / 2 := by positivity
  rw [div_self (ne_of_gt hpos)] at h0
  norm_num at h0

/-- C1 (amended): after `set_data` all three matrices and the stored pose
are consistent with the new pose and the unchanged aspect ratio; after
`set_aspect_ratio` the view matrices and stored pose are consistent with
the unchanged pose and the aspect-ratio field holds the new value, but the
stored projection is the one computed with the *previous* aspect ratio, so
a stale projection is observable until the next update. -/
theorem set_update_matrix_consistency_amended (s : CameraManager) (d : Camera)
    (a : Option Scalar) :
    CameraManager.proj (CameraManager.set_data s d)
        = compute_projection_matrix d ( CameraManager.aspect_ratio s)
      ∧ CameraManager.view (CameraManager.set_data s d) = compute_view_matrix d
      ∧ CameraManager.orig_view (CameraManager.set_data s d) = compute_origin_matrix d
      ∧ CameraManager.aspect_ratio (CameraManager.set_data s d) = CameraManager.aspect_ratio s
      ∧ CameraManager.get_data (CameraManager.set_data s d) = d
      ∧ CameraManager.proj (CameraManager.set_aspect_ratio s a)
          = compute_projection_matrix ( CameraManager.get_data s) ( CameraManager.aspect_ratio s)
      ∧ CameraManager.view (CameraManager.set_aspect_ratio s a)
          = compute_view_matrix ( CameraManager.get_data s)
      ∧ CameraManager.orig_view (CameraManager.set_aspect_ratio s a)
          = compute_origin_matrix ( CameraManager.get_data s)
      ∧ CameraManager.aspect_ratio (CameraManager.set_aspect_ratio s a) = a.getD 1 :=
  ⟨rfl, rfl, rfl, rfl, rfl, rfl, rfl, rfl, rfl⟩

/-! ## Render-graph theorems -/

/-- One iteration of the shadow loop appends exactly its two forward
nodes. -/
theorem pbr_shadow_pass_nodes_eq (st : BaseRenderGraphIntermediateState)
    (g : RenderGraph) (i : Nat) (d : ShadowDesc) :
    (st.pbr_shadow_pass g i d).nodes = g.nodes ++ st.pbr_shadow_pass_nodes i d := by
  simp [BaseRenderGraphIntermediateState.pbr_shadow_pass,
    BaseRenderGraphIntermediateState.pbr_shadow_pass_nodes, add_forward_to_graph,
    RenderGraph.add_node]

/-- The shadow loop, folded over any indexed list, appends the
concatenation of its per-entry node pairs in order. -/
theorem shadow_fold (st : BaseRenderGraphIntermediateState)
    (l : List (Nat × ShadowDesc)) (g : RenderGraph) :
    (l.foldl (fun g p => st.pbr_shadow_pass g p.1 p.2) g).nodes
      = g.nodes ++ l.flatMap (fun p => st.pbr_shadow_pass_nodes p.1 p.2) := by
  induction l generalizing g with
  | nil => simp
  | cons a t ih => simp [List.foldl_cons, ih, pbr_shadow_pass_nodes_eq]

/-- The shadow loop inserts nodes only; it never allocates targets. -/
theorem shadow_fold_targets (st : BaseRenderGraphIntermediateState)
    (l : List (Nat × ShadowDesc)) (g : RenderGraph) :
    (l.foldl (fun g p => st.pbr_shadow_pass g p.1 p.2) g).targets = g.targets := by
  induction l generalizing g with
  | nil => rfl
  | cons a t ih =>
      rw [List.foldl_cons, ih]
      rfl

/-- Full characterization of one assembled frame: starting from the empty
graph, `add_to_graph` produces exactly the node sequence `specNodes`. -/
theorem add_to_graph_nodes (inputs : BaseRenderGraphInputs)
    (settings : BaseRenderGraphSettings) :
    (BaseRenderGraph.add_to_graph RenderGraph.empty inputs settings).nodes
      = specNodes inputs settings := by
  obtain ⟨⟨stsz, shadows⟩, ⟨sky⟩, ⟨hdl, res, samp⟩⟩ := inputs
  cases samp <;> cases sky <;>
    simp [BaseRenderGraph.add_to_graph, BaseRenderGraphIntermediateState.new,
      RenderGraph.empty, RenderGraph.add_data, RenderGraph.add_render_target,
      RenderGraph.add_node, DepthTargets.new, DepthTargets.rendering_target,
      SampleCount.needs_resolve,
      BaseRenderGraphIntermediateState.clear_shadow_buffers,
      BaseRenderGraphIntermediateState.create_frame_uniforms,
      BaseRenderGraphIntermediateState.skinning,
      BaseRenderGraphIntermediateState.pbr_shadow_rendering,
      shadow_fold,
      BaseRenderGraphIntermediateState.pbr_render,
      BaseRenderGraphIntermediateState.skybox,
      BaseRenderGraphIntermediateState.pbr_forward_rendering_transparent,
      BaseRenderGraphIntermediateState.tonemapping,
      add_depth_clear_to_graph, uniforms_add_to_graph, add_skinning_to_graph,
      add_forward_to_graph, skybox_add_to_graph, tonemapping_add_to_graph,
      RenderPassTargets.resolved_color, RenderTargetHandle.set_mips,
      RenderTargetHandle.set_viewport,
      BaseRenderGraphIntermediateState.pbr_shadow_pass_nodes,
      specNodes, specShadowSegment, specShadowPairNodes, specShadowRenderpass,
      specPrimaryRenderpass, specTonemapSource, specSkyboxSegment,
      attachmentAndBinding, INTERNAL_SHADOW_DEPTH_FORMAT] <;>
    rfl

/-- Every node of a shadow segment is a shadow-render node. -/
theorem shadow_segment_filter_shadow (l : List (Nat × ShadowDesc)) :
    (l.flatMap specShadowPairNodes).filter isShadowRenderNode
      = l.flatMap specShadowPairNodes := by
  induction l with
  | nil => rfl
  | cons a t ih =>
      simp [List.flatMap_cons, List.filter_append, ih, specShadowPairNodes,
        isShadowRenderNode]

/-- No node of a shadow segment is a skybox node. -/
theorem shadow_segment_filter_not_skybox (l : List (Nat × ShadowDesc)) :
    (l.flatMap specShadowPairNodes).filter (fun n => !isSkyboxNode n)
      = l.flatMap specShadowPairNodes := by
  induction l with
  | nil => rfl
  | cons a t ih =>
      rw [List.flatMap_cons, List.filter_append, ih]
      rfl

/-- A shadow segment contains no skybox node. -/
theorem shadow_segment_filter_skybox (l : List (Nat × ShadowDesc)) :
    (l.flatMap specShadowPairNodes).filter isSkyboxNode = [] := by
  induction l with
  | nil => rfl
  | cons a t ih =>
      simp [List.flatMap_cons, List.filter_append, ih, specShadowPairNodes,
        isSkyboxNode]

/-- A shadow segment has two nodes per entry. -/
theorem shadow_segment_length (l : List (Nat × ShadowDesc)) :
    (l.flatMap specShadowPairNodes).length = 2 * l.length := by
  induction l with
  | nil => rfl
  | cons a t ih =>
      simp only [List.flatMap_cons, List.length_append, ih, List.length_cons,
        specShadowPairNodes, List.length_nil]
      omega

/-- C3: the shadow-rendering nodes of an assembled frame are exactly one
node pair — opaque-depth routine then cutout-depth routine — per entry of
the evaluated shadow list, in list index order, each rendered into the
shadow target (target 0, the `shadow target` allocation) restricted to the
viewport given by the entry's stored offset and square size, with no color
attachments. -/
theorem shadow_node_pairs_per_entry (inputs : BaseRenderGraphInputs)
    (settings : BaseRenderGraphSettings) :
    (BaseRenderGraph.add_to_graph RenderGraph.empty inputs settings).nodes.filter
        isShadowRenderNode
      = inputs.eval_output.shadows.enum.flatMap specShadowPairNodes
    ∧ (BaseRenderGraph.add_to_graph RenderGraph.empty inputs settings).targets.get? 0
      = some
          { label := some "shadow target"
            resolution := inputs.eval_output.shadow_target_size
            depth := 1
            mip_levels := some 1
            samples := SampleCount.one
            format := INTERNAL_SHADOW_DEPTH_FORMAT
            usage := attachmentAndBinding } := by
  constructor
  · rw [add_to_graph_nodes]
    obtain ⟨⟨stsz, shadows⟩, ⟨sky⟩, ⟨hdl, res, samp⟩⟩ := inputs
    cases sky <;>
      simp [specNodes, List.filter_append, specShadowSegment,
        shadow_segment_filter_shadow, isShadowRenderNode, specSkyboxSegment]
  · obtain ⟨⟨stsz, shadows⟩, ⟨sky⟩, ⟨hdl, res, samp⟩⟩ := inputs
    cases samp <;> cases sky <;>
      simp [BaseRenderGraph.add_to_graph, BaseRenderGraphIntermediateState.new,
        RenderGraph.empty, RenderGraph.add_data, RenderGraph.add_render_target,
        RenderGraph.add_node, DepthTargets.new, SampleCount.needs_resolve,
        BaseRenderGraphIntermediateState.clear_shadow_buffers,
        BaseRenderGraphIntermediateState.create_frame_uniforms,
        BaseRenderGraphIntermediateState.skinning,
        BaseRenderGraphIntermediateState.pbr_shadow_rendering, shadow_fold_targets,
        BaseRenderGraphIntermediateState.pbr_render,
        BaseRenderGraphIntermediateState.skybox,
        BaseRenderGraphIntermediateState.pbr_forward_rendering_transparent,
        BaseRenderGraphIntermediateState.tonemapping,
        add_depth_clear_to_graph, uniforms_add_to_graph, add_skinning_to_graph,
        add_forward_to_graph, skybox_add_to_graph, tonemapping_add_to_graph,
        INTERNAL_SHADOW_DEPTH_FORMAT, attachmentAndBinding]

/-- C7: with the skybox routine omitted the assembled graph contains no
skybox node, and its node sequence is exactly the with-skybox node sequence
with the skybox node removed — every other stage is still present, in the
same relative order. -/
theorem skybox_omitted_graph (inputs : BaseRenderGraphInputs)
    (settings : BaseRenderGraphSettings) :
    (BaseRenderGraph.add_to_graph RenderGraph.empty
        { inputs with routines := { skybox := none } } settings).nodes.filter isSkyboxNode = []
      ∧ (BaseRenderGraph.add_to_graph RenderGraph.empty
            { inputs with routines := { skybox := none } } settings).nodes
        = (BaseRenderGraph.add_to_graph RenderGraph.empty
            { inputs with routines := { skybox := some () } } settings).nodes.filter
            (fun n => !isSkyboxNode n) := by
  obtain ⟨⟨stsz, shadows⟩, ⟨sky⟩, ⟨hdl, res, samp⟩⟩ := inputs
  constructor
  · rw [add_to_graph_nodes]
    simp [specNodes, List.filter_append, specShadowSegment,
      shadow_segment_filter_skybox, isSkyboxNode, specSkyboxSegment]
  · rw [add_to_graph_nodes, add_to_graph_nodes]
    simp only [specNodes, specShadowSegment, specSkyboxSegment, specPrimaryRenderpass,
      specTonemapSource, List.filter_append, List.append_assoc]
    rw [shadow_segment_filter_not_skybox]
    rfl

/-- C8 counterexample: with an empty shadow list and a skybox routine
present the claim's count — one node per stage, plus one per light for the
shadow stage — predicts 7 nodes, but assembly inserts 8: the opaque/cutout
stage alone inserts two forward nodes. -/
theorem stage_single_node_cex :
    (BaseRenderGraph.add_to_graph RenderGraph.empty cexInputs cexSettings).nodes.length = 8
      ∧ (8 : Nat) ≠ 7 :=
  ⟨rfl, by decide⟩

/-- C8 (amended): the stages are issued in the fixed order clear-shadow,
frame-uniforms, skinning, shadow-rendering, opaque/cutout, skybox,
transparent, tonemap; the clear, uniforms, skinning, skybox, transparent
and tonemap stages insert exactly one node each, the opaque/cutout stage
inserts two nodes (opaque routine then cutout routine), and the shadow
stage inserts two nodes — an opaque-depth/cutout-depth pair — per light of
the evaluated list. -/
theorem pipeline_stage_order_nodes (inputs : BaseRenderGraphInputs)
    (settings : BaseRenderGraphSettings) :
    (BaseRenderGraph.add_to_graph RenderGraph.empty inputs settings).nodes
        = [Node.clearDepth ⟨0, none, none⟩ 0]
          ++ [Node.frameUniforms ⟨0, none, none⟩ 0 1 settings.ambient_color
                inputs.target.resolution]
          ++ [Node.skinning]
          ++ specShadowSegment inputs
          ++ [Node.forward RoutineId.OpaqueForward "PBR Forward Pass" CameraSpecifier.Viewport 1
                inputs.target.samples (specPrimaryRenderpass inputs settings),
              Node.forward RoutineId.CutoutForward "PBR Forward Pass" CameraSpecifier.Viewport 1
                inputs.target.samples (specPrimaryRenderpass inputs settings)]
          ++ specSkyboxSegment inputs settings
          ++ [Node.forward RoutineId.BlendForward "PBR Forward Transparent"
                CameraSpecifier.Viewport 1 inputs.target.samples
                (specPrimaryRenderpass inputs settings)]
          ++ [Node.tonemapNode (specTonemapSource inputs) inputs.target.handle 1]
      ∧ (specShadowSegment inputs).length = 2 * inputs.eval_output.shadows.length := by
  constructor
  · rw [add_to_graph_nodes]
    simp [specNodes]
  · unfold specShadowSegment
    rw [shadow_segment_length, List.enum_length]

/-- C4: when the output sample count is one, assembly allocates no resolve
color target and no multisampled depth target, and the primary pass's depth
attachment is the single-sample mipped depth target restricted to mip 0;
when it is greater than one, exactly one single-sample resolve color target
and exactly one multisampled depth target are allocated, and the primary
pass's depth attachment is the multisampled one. -/
theorem msaa_target_allocation (inputs : BaseRenderGraphInputs)
    (settings : BaseRenderGraphSettings) :
    match inputs.target.samples with
    | SampleCount.one =>
        (BaseRenderGraphIntermediateState.new RenderGraph.empty inputs
              settings).2.targets.filter (fun d => d.label == some "hdr resolve") = []
        ∧ (BaseRenderGraphIntermediateState.new RenderGraph.empty inputs
              settings).2.targets.filter (fun d => d.label == some "hdr depth multisampled") = []
        ∧ (BaseRenderGraphIntermediateState.new RenderGraph.empty inputs
              settings).1.depth.multi_sample = none
        ∧ (BaseRenderGraphIntermediateState.new RenderGraph.empty inputs
              settings).1.primary_renderpass.depth_stencil
          = some
              { target := RenderTargetHandle.set_mips
                  (BaseRenderGraphIntermediateState.new RenderGraph.empty inputs
                    settings).1.depth.single_sample_mipped 0 1
                depth_clear := some 0
                stencil_clear := none }
    | SampleCount.four =>
        (BaseRenderGraphIntermediateState.new RenderGraph.empty inputs
              settings).2.targets.filter (fun d => d.label == some "hdr resolve")
          = [{ label := some "hdr resolve"
               resolution := inputs.target.resolution
               depth := 1
               mip_levels := some 1
               samples := SampleCount.one
               format := TextureFormat.rgba16Float
               usage := attachmentAndBinding }]
        ∧ (BaseRenderGraphIntermediateState.new RenderGraph.empty inputs
              settings).2.targets.filter (fun d => d.label == some "hdr depth multisampled")
          = [{ label := some "hdr depth multisampled"
               resolution := inputs.target.resolution
               depth := 1
               mip_levels := some 1
               samples := SampleCount.four
               format := TextureFormat.depth32Float
               usage := attachmentAndBinding }]
        ∧ ∃ h : RenderTargetHandle,
            (BaseRenderGraphIntermediateState.new RenderGraph.empty inputs
                settings).1.depth.multi_sample = some h
            ∧ (BaseRenderGraphIntermediateState.new RenderGraph.empty inputs
                  settings).1.primary_renderpass.depth_stencil
              = some { target := h, depth_clear := some 0, stencil_clear := none } := by
  obtain ⟨⟨stsz, shadows⟩, ⟨sky⟩, ⟨hdl, res, samp⟩⟩ := inputs
  cases samp with
  | one => exact ⟨rfl, rfl, rfl, rfl⟩
  | four => exact ⟨rfl, rfl, ⟨4, none, none⟩, rfl, rfl⟩

end Rend3
